import Mathlib

/-!
Verification of the CITI calculator repository: a shallow embedding of the
core logic (risk-index calculation, interpretation, history store, report
formatting, age computation) together with theorems checking the
natural-language specification against it.

Python floats are modelled as exact rationals (ℚ): every constant involved
(0.1, thresholds, the concrete test inputs) is exactly representable and the
claims are about branch structure and comparisons, which the rational model
reflects faithfully.
-/

namespace Citi

/-! ## Configuration constants (src/config.py) -/

def CITI_LOW_THRESHOLD : ℚ := 100000

def CITI_HIGH_THRESHOLD : ℚ := 500000

def RISK_LOW : String := "Низкий риск смерти"

def RISK_MODERATE : String := "Умеренный риск"

def RISK_HIGH : String := "Высокий риск смерти"

def COLOR_LOW : String := "#4CAF50"

def COLOR_MODERATE : String := "#FFC107"

def COLOR_HIGH : String := "#F44336"

def EXTRA_WARNING_CT_CITI : String :=
  "\n⚠️ При CITI более 500 000 и КТ более 70%\nриск смерти превышает 95%"

def UNKNOWN_STATUS : String := "Не указано"

/-! ## RiskCalculator (src/core/calculator.py) -/

/-- `calculate_citi` from src/core/calculator.py (byte-identical logic in
src/calculator.py): `denominator = lymphocytes if lymphocytes > 0 else 0.1;
return (d_dimer * interleukins) / denominator`. -/
def calculate_citi (d_dimer interleukins lymphocytes : ℚ) : ℚ :=
  let denominator := if lymphocytes > 0 then lymphocytes else (0.1 : ℚ)
  (d_dimer * interleukins) / denominator

/-- `interpret_citi` from src/core/calculator.py: risk label and color by
thresholds. -/
def interpret_citi (citi : ℚ) : String × String :=
  if citi < CITI_LOW_THRESHOLD then (RISK_LOW, COLOR_LOW)
  else if citi ≤ CITI_HIGH_THRESHOLD then (RISK_MODERATE, COLOR_MODERATE)
  else (RISK_HIGH, COLOR_HIGH)

/-- `get_interpretation_text` from src/core/calculator.py: appends the extra
warning when `citi > CITI_HIGH_THRESHOLD and ct_percent > 70`. -/
def get_interpretation_text (citi ct_percent : ℚ) : String :=
  let risk := (interpret_citi citi).1
  if citi > CITI_HIGH_THRESHOLD ∧ ct_percent > 70 then
    risk ++ EXTRA_WARNING_CT_CITI
  else risk

end Citi

namespace Citi

/-! ## Theorems for the calculator claims -/

/-- C1: for every d_dimer and interleukins and every lymphocytes > 0,
`calculate_citi` returns (d_dimer * interleukins) / lymphocytes; for every
lymphocytes ≤ 0 it returns (d_dimer * interleukins) / 0.1. The function is
total (no exception) over this domain. -/
theorem calculate_citi_spec :
    (∀ d i l : ℚ, 0 < l → calculate_citi d i l = d * i / l) ∧
    (∀ d i l : ℚ, l ≤ 0 → calculate_citi d i l = d * i / (0.1 : ℚ)) := by
  constructor
  · intro d i l hl
    simp [calculate_citi, hl]
  · intro d i l hl
    simp [calculate_citi, not_lt.mpr hl]

/-- Witness for C1 at concrete inputs. -/
theorem calculate_citi_spec_witness :
    ((0 : ℚ) < 2 ∧ calculate_citi 4 3 2 = 4 * 3 / 2) ∧
    ((0 : ℚ) ≤ 0 ∧ calculate_citi 4 3 0 = 4 * 3 / (0.1 : ℚ)) :=
  ⟨⟨by norm_num, calculate_citi_spec.1 4 3 2 (by norm_num)⟩,
   ⟨le_refl 0, calculate_citi_spec.2 4 3 0 (le_refl 0)⟩⟩

/-- C2: `interpret_citi` yields Low/green iff index < 100000, Moderate/yellow
iff 100000 ≤ index ≤ 500000, High/red iff index > 500000; both boundary
values are Moderate; the four boundary examples evaluate as stated. -/
theorem interpret_citi_bands (x : ℚ) :
    (interpret_citi x = (RISK_LOW, COLOR_LOW) ↔ x < 100000) ∧
    (interpret_citi x = (RISK_MODERATE, COLOR_MODERATE) ↔
      100000 ≤ x ∧ x ≤ 500000) ∧
    (interpret_citi x = (RISK_HIGH, COLOR_HIGH) ↔ 500000 < x) ∧
    interpret_citi (99999.99 : ℚ) = (RISK_LOW, COLOR_LOW) ∧
    interpret_citi 100000 = (RISK_MODERATE, COLOR_MODERATE) ∧
    interpret_citi 500000 = (RISK_MODERATE, COLOR_MODERATE) ∧
    interpret_citi (500000.01 : ℚ) = (RISK_HIGH, COLOR_HIGH) := by
  have hlm : (RISK_LOW, COLOR_LOW) ≠ (RISK_MODERATE, COLOR_MODERATE) := by
    decide
  have hlh : (RISK_LOW, COLOR_LOW) ≠ (RISK_HIGH, COLOR_HIGH) := by decide
  have hmh : (RISK_MODERATE, COLOR_MODERATE) ≠ (RISK_HIGH, COLOR_HIGH) := by
    decide
  have eLow : ∀ y : ℚ, y < 100000 →
      interpret_citi y = (RISK_LOW, COLOR_LOW) := by
    intro y h1
    simp [interpret_citi, CITI_LOW_THRESHOLD, h1]
  have eMod : ∀ y : ℚ, ¬ y < 100000 → y ≤ 500000 →
      interpret_citi y = (RISK_MODERATE, COLOR_MODERATE) := by
    intro y h1 h2
    simp [interpret_citi, CITI_LOW_THRESHOLD, CITI_HIGH_THRESHOLD, h1, h2]
  have eHigh : ∀ y : ℚ, ¬ y < 100000 → ¬ y ≤ 500000 →
      interpret_citi y = (RISK_HIGH, COLOR_HIGH) := by
    intro y h1 h2
    simp [interpret_citi, CITI_LOW_THRESHOLD, CITI_HIGH_THRESHOLD, h1, h2]
  have i1 : ∀ y : ℚ, interpret_citi y = (RISK_LOW, COLOR_LOW) ↔
      y < 100000 := by
    intro y
    constructor
    · intro e
      by_contra h1
      by_cases h2 : y ≤ 500000
      · exact hlm (e.symm.trans (eMod y h1 h2))
      · exact hlh (e.symm.trans (eHigh y h1 h2))
    · exact eLow y
  have i2 : ∀ y : ℚ, interpret_citi y = (RISK_MODERATE, COLOR_MODERATE) ↔
      100000 ≤ y ∧ y ≤ 500000 := by
    intro y
    constructor
    · intro e
      by_cases h1 : y < 100000
      · exact absurd (e.symm.trans (eLow y h1)).symm hlm
      · by_cases h2 : y ≤ 500000
        · exact ⟨not_lt.mp h1, h2⟩
        · exact absurd (e.symm.trans (eHigh y h1 h2)) hmh
    · rintro ⟨h1, h2⟩
      exact eMod y (not_lt.mpr h1) h2
  have i3 : ∀ y : ℚ, interpret_citi y = (RISK_HIGH, COLOR_HIGH) ↔
      500000 < y := by
    intro y
    constructor
    · intro e
      by_contra h2
      by_cases h1 : y < 100000
      · exact hlh (e.symm.trans (eLow y h1)).symm
      · exact hmh (e.symm.trans (eMod y h1 (not_lt.mp h2))).symm
    · intro h2
      exact eHigh y (by linarith) (not_le.mpr h2)
  exact ⟨i1 x, i2 x, i3 x,
    (i1 _).mpr (by norm_num),
    (i2 _).mpr (by norm_num),
    (i2 _).mpr (by norm_num),
    (i3 _).mpr (by norm_num)⟩

/-- Appending the nonempty warning string changes the interpretation text. -/
theorem append_warning_ne (s : String) : s ++ EXTRA_WARNING_CT_CITI ≠ s := by
  intro h
  have hl := congrArg String.length h
  rw [String.length_append] at hl
  have hpos : 0 < EXTRA_WARNING_CT_CITI.length := by decide
  omega

/-- C3: the extra warning is appended to the interpretation text iff
index > 500000 and ct_percent > 70; index 600000 with ct 80 yields the
warning, with ct 70 it does not; callers map an absent ct_percent to 0,
which never triggers the warning. -/
theorem extra_warning_iff (citi ct : ℚ) :
    (get_interpretation_text citi ct =
        (interpret_citi citi).1 ++ EXTRA_WARNING_CT_CITI ↔
      500000 < citi ∧ 70 < ct) ∧
    get_interpretation_text 600000 80 = RISK_HIGH ++ EXTRA_WARNING_CT_CITI ∧
    get_interpretation_text 600000 70 = RISK_HIGH ∧
    get_interpretation_text citi 0 = (interpret_citi citi).1 := by
  have hzero : ∀ y : ℚ, get_interpretation_text y 0 = (interpret_citi y).1 := by
    intro y
    have : ¬ (y > CITI_HIGH_THRESHOLD ∧ (0 : ℚ) > 70) := by
      rintro ⟨-, h⟩
      norm_num at h
    simp [get_interpretation_text, this]
  refine ⟨?_, ?_, ?_, hzero citi⟩
  · by_cases hc : 500000 < citi ∧ 70 < ct
    · have e : get_interpretation_text citi ct =
          (interpret_citi citi).1 ++ EXTRA_WARNING_CT_CITI := by
        simp [get_interpretation_text, CITI_HIGH_THRESHOLD, hc.1, hc.2]
      exact ⟨fun _ => hc, fun _ => e⟩
    · have e : get_interpretation_text citi ct = (interpret_citi citi).1 := by
        have : ¬ (citi > CITI_HIGH_THRESHOLD ∧ ct > 70) := by
          rintro ⟨h1, h2⟩
          exact hc ⟨by simpa [CITI_HIGH_THRESHOLD] using h1, h2⟩
        simp [get_interpretation_text, this]
      rw [e]
      exact ⟨fun h => absurd h.symm (append_warning_ne _), fun h => absurd h hc⟩
  · have e : get_interpretation_text (600000 : ℚ) 80 =
        (interpret_citi 600000).1 ++ EXTRA_WARNING_CT_CITI := by
      simp [get_interpretation_text, CITI_HIGH_THRESHOLD]
      norm_num
    rw [e]
    have : interpret_citi (600000 : ℚ) = (RISK_HIGH, COLOR_HIGH) := by
      norm_num [interpret_citi, CITI_LOW_THRESHOLD, CITI_HIGH_THRESHOLD]
    rw [this]
  · have : ¬ ((600000 : ℚ) > CITI_HIGH_THRESHOLD ∧ (70 : ℚ) > 70) := by
      rintro ⟨-, h⟩
      norm_num at h
    have e : get_interpretation_text (600000 : ℚ) 70 =
        (interpret_citi 600000).1 := by
      simp [get_interpretation_text, this]
    rw [e]
    have : interpret_citi (600000 : ℚ) = (RISK_HIGH, COLOR_HIGH) := by
      norm_num [interpret_citi, CITI_LOW_THRESHOLD, CITI_HIGH_THRESHOLD]
    rw [this]

/-- C9: for d_dimer > 0 and interleukins > 0 and any lymphocytes value, the
computed index is non-negative. -/
theorem calculate_citi_nonneg (d i l : ℚ) (hd : 0 < d) (hi : 0 < i) :
    0 ≤ calculate_citi d i l := by
  unfold calculate_citi
  by_cases hl : l > 0
  · simp only [hl, if_true]
    positivity
  · simp only [hl, if_false]
    positivity

/-- Witness for C9 at a concrete input (negative lymphocytes included). -/
theorem calculate_citi_nonneg_witness :
    (0 : ℚ) < 3 ∧ (0 : ℚ) < 5 ∧ 0 ≤ calculate_citi 3 5 (-2) :=
  ⟨by norm_num, by norm_num,
    calculate_citi_nonneg 3 5 (-2) (by norm_num) (by norm_num)⟩

/-! ## HistoryStore (src/core/history.py)

The history file holds one JSON document; `json.dump`/`json.load` are
modelled at the JSON-value level (an exact tree of parsed values), since the
store relies on the standard library for text serialization. History entries
are JSON objects kept as parsed values, exactly as the Python code keeps
them as dicts. -/

/-- A parsed JSON value (numbers as exact rationals). -/
inductive Json where
  | null : Json
  | bool : Bool → Json
  | num : ℚ → Json
  | str : String → Json
  | arr : List Json → Json
  | obj : List (String × Json) → Json

/-- State of the backing history file: absent; present with bytes that are
not valid UTF-8 (reading raises UnicodeDecodeError, which is neither
json.JSONDecodeError nor IOError); present with text that is not valid JSON
(json.load raises json.JSONDecodeError); or present with a parsed JSON
document. -/
inductive FileContent where
  | absent : FileContent
  | badEncoding : FileContent
  | unparseable : FileContent
  | json : Json → FileContent

/-- `load_history` from src/core/history.py. Returns the loaded entries
together with a flag recording whether `logging.error` was called;
`Except.error` models an uncaught exception propagating to the caller.
Branches: missing file → `[]`; JSONDecodeError/IOError → logged, `[]`;
parsed list → its elements; parsed non-list → `[]` (the `isinstance`
fallback, which does not log); undecodable bytes → UnicodeDecodeError
propagates (not in the `except` tuple). -/
def load_history : FileContent → Except Unit (List Json × Bool)
  | .absent => .ok ([], false)
  | .badEncoding => .error ()
  | .unparseable => .ok ([], true)
  | .json (.arr l) => .ok (l, false)
  | .json _ => .ok ([], false)

/-- `save_history` from src/core/history.py: serializes the full list and
overwrites the backing file (the successful-write case; an IOError on write
is logged and re-raised, out of scope here). -/
def save_history (history : List Json) : FileContent :=
  .json (.arr history)

/-- The append step of `CITICalculatorApp.on_calculate`
(src/ui/main_window.py): `load_history()`, `append(entry)`,
`save_history(...)`. An exception from the load propagates. -/
def append_entry (e : Json) (fc : FileContent) : Except Unit FileContent :=
  match load_history fc with
  | .ok (l, _) => .ok (save_history (l ++ [e]))
  | .error u => .error u

/-- Appending a sequence of entries one calculation at a time. -/
def append_all : List Json → FileContent → Except Unit FileContent
  | [], fc => .ok fc
  | e :: es, fc =>
    match append_entry e fc with
    | .ok fc' => append_all es fc'
    | .error u => .error u

/-- The index of the selected table row in the history dialog
(src/ui/history_dialog.py, `get_selected_index`): the row when a row is
selected, `-1` when nothing is selected — on an empty store the table has
no rows, so the index is `-1`. -/
def no_selection_index : Int := -1

/-- Python `del lst[i]` semantics: negative indices count from the end;
out-of-range raises IndexError (`none`). -/
def pyDelItem (l : List Json) (i : Int) : Option (List Json) :=
  let n : Int := l.length
  let j : Int := if i < 0 then i + n else i
  if 0 ≤ j ∧ j < n then some (l.eraseIdx j.toNat) else none

/-- `HistoryDialog.delete_selected` (src/ui/history_dialog.py) acting on the
in-memory history list, with the confirmation dialog answered Yes: when the
selected index is ≥ 0 the entry is deleted and the list re-saved; otherwise
(nothing selected, index -1) nothing happens. -/
def delete_selected (idx : Int) (history : List Json) :
    Option (List Json) :=
  if 0 ≤ idx then pyDelItem history idx else some history

end Citi

namespace Citi

/-! ## Theorems for the history claims -/

/-- Appending onto an already-saved list threads the list through. -/
theorem append_all_save (es : List Json) :
    ∀ l : List Json,
      append_all es (save_history l) = .ok (save_history (l ++ es)) := by
  induction es with
  | nil => intro l; simp [append_all]
  | cons e es ih =>
    intro l
    have step : append_entry e (save_history l) =
        .ok (save_history (l ++ [e])) := rfl
    simp only [append_all, step]
    rw [ih (l ++ [e])]
    simp

/-- C4: appending a sequence of entries to the (initially absent) store and
then loading yields exactly those entries, in order, with identical values;
no error is logged and no exception is raised. -/
theorem append_load_roundtrip (es : List Json) :
    Except.bind (append_all es FileContent.absent) load_history =
      Except.ok (es, false) := by
  cases es with
  | nil => rfl
  | cons e es =>
    have step : append_entry e FileContent.absent =
        .ok (save_history [e]) := rfl
    simp only [append_all, step]
    rw [append_all_save es [e]]
    rfl

/-- C5 counterexample: a present file whose JSON parses to a non-list value
makes `load_history` return the empty list WITHOUT calling the logging
collaborator (the `isinstance` fallback bypasses the `except` clause), and a
present file with invalid encoding raises instead of degrading — both
contradicting the claim's "returns empty and records the failure via
logging" for every malformed file. -/
theorem load_history_malformed_counterexample :
    load_history (FileContent.json (Json.num 0)) = Except.ok ([], false) ∧
    load_history (FileContent.json (Json.num 0)) ≠ Except.ok ([], true) ∧
    load_history FileContent.badEncoding = Except.error () := by
  refine ⟨rfl, ?_, rfl⟩
  intro h
  have h1 : (([] : List Json), false) = (([] : List Json), true) := by
    injection h
  have h2 : (false : Bool) = true := congrArg Prod.snd h1
  exact Bool.noConfusion h2

/-- C5 amended: `load_history` returns the empty sequence without raising
when the file is absent; when the file text is not valid JSON it returns the
empty sequence and records the failure via the logging collaborator; when
the file parses to a JSON value that is not a list it returns the empty
sequence silently (no log record); a file whose bytes are not valid UTF-8
raises (UnicodeDecodeError is not caught). -/
theorem load_history_amended :
    load_history FileContent.absent = Except.ok ([], false) ∧
    load_history FileContent.unparseable = Except.ok ([], true) ∧
    (∀ v : Json, (∀ l, v ≠ Json.arr l) →
      load_history (FileContent.json v) = Except.ok ([], false)) ∧
    load_history FileContent.badEncoding = Except.error () := by
  refine ⟨rfl, rfl, ?_, rfl⟩
  intro v hv
  cases v with
  | arr l => exact absurd rfl (hv l)
  | null => rfl
  | bool b => rfl
  | num q => rfl
  | str s => rfl
  | obj o => rfl

/-- Witness for the amended C5 at a concrete non-list JSON value. -/
theorem load_history_amended_witness :
    load_history (FileContent.json (Json.str "oops")) =
      Except.ok ([], false) :=
  load_history_amended.2.2.1 (Json.str "oops") (fun _ h => Json.noConfusion h)

/-- C6: deleting at a selected in-range position removes exactly that entry
and preserves the relative order of the rest; on an empty store nothing is
selected (index -1), and delete is a no-op. -/
theorem delete_selected_spec :
    (∀ (history : List Json) (i : ℕ), i < history.length →
      delete_selected (i : Int) history =
        some (history.take i ++ history.drop (i + 1))) ∧
    delete_selected no_selection_index [] = some [] := by
  constructor
  · intro history i hi
    have h0 : (0 : Int) ≤ (i : Int) := by omega
    have hrange : (0 : Int) ≤ (i : Int) ∧
        (i : Int) < (history.length : Int) := ⟨h0, by omega⟩
    have hneg : ¬ ((i : Int) < 0) := by omega
    simp only [delete_selected, if_pos h0, pyDelItem, if_neg hneg,
      if_pos hrange]
    have ht : ((i : Int)).toNat = i := rfl
    rw [ht, List.eraseIdx_eq_take_drop_succ]
  · rfl

/-- Witness for C6 at a concrete history and position. -/
theorem delete_selected_spec_witness :
    (1 : ℕ) < [Json.num 1, Json.num 2, Json.num 3].length ∧
    delete_selected ((1 : ℕ) : Int) [Json.num 1, Json.num 2, Json.num 3] =
      some [Json.num 1, Json.num 3] :=
  ⟨by decide,
    delete_selected_spec.1 [Json.num 1, Json.num 2, Json.num 3] 1
      (by decide)⟩

/-! ## Dates and age (src/ui/main_window.py) -/

/-- Gregorian leap-year rule, as used by QDate. -/
def isLeapYear (y : Int) : Bool :=
  (y % 4 == 0 && y % 100 != 0) || y % 400 == 0

/-- Days in a month of the Gregorian calendar. -/
def daysInMonth (y m : Int) : Int :=
  if m = 2 then (if isLeapYear y then 29 else 28)
  else if m = 4 ∨ m = 6 ∨ m = 9 ∨ m = 11 then 30
  else 31

/-- A calendar date as held by a QDate (year, month, day). -/
structure QDate where
  year : Int
  month : Int
  day : Int

/-- QDate.isValid: a real Gregorian calendar date (Qt has no year 0). -/
def QDate.isValid (d : QDate) : Bool :=
  decide (d.year ≠ 0) && decide (1 ≤ d.month) && decide (d.month ≤ 12) &&
    decide (1 ≤ d.day) && decide (d.day ≤ daysInMonth d.year d.month)

/-- `CITICalculatorApp.calculate_age` (src/ui/main_window.py): 0 when a date
is invalid; otherwise the year difference, decremented when the (month, day)
of the study date precedes that of the birth date (Python tuple comparison),
then clamped with `max(0, years)`. -/
def calculate_age (birth study : QDate) : Int :=
  if !birth.isValid || !study.isValid then 0
  else
    let years := study.year - birth.year
    let years' :=
      if study.month < birth.month ∨
          (study.month = birth.month ∧ study.day < birth.day) then
        years - 1
      else years
    max 0 years'

/-- The age string built in `on_calculate`: the unknown placeholder when
either date is marked unknown, otherwise the computed age with the unit
suffix. -/
def age_str (dobUnknown studyUnknown : Bool) (birth study : QDate) :
    String :=
  if dobUnknown || studyUnknown then UNKNOWN_STATUS
  else toString (calculate_age birth study) ++ " лет"

/-- The date-restoring logic of `load_entry_to_form`: the unknown checkbox
ends up checked when the stored value is the unknown placeholder or when the
stored string re-parses to an invalid QDate. -/
def restored_date_unknown (storedUnknown : Bool) (parsed : QDate) : Bool :=
  storedUnknown || !parsed.isValid

/-- C7 counterexample: with valid dates birth 2000-06-15 and study
1990-06-14, the claimed formula (year difference minus one, here -11) is not
what the code returns — `calculate_age` clamps at zero and returns 0. -/
theorem calculate_age_counterexample :
    QDate.isValid ⟨2000, 6, 15⟩ = true ∧
    QDate.isValid ⟨1990, 6, 14⟩ = true ∧
    calculate_age ⟨2000, 6, 15⟩ ⟨1990, 6, 14⟩ = 0 ∧
    calculate_age ⟨2000, 6, 15⟩ ⟨1990, 6, 14⟩ ≠ 1990 - 2000 - 1 := by
  refine ⟨by decide, by decide, by decide, ?_⟩
  intro h
  have h0 : calculate_age ⟨2000, 6, 15⟩ ⟨1990, 6, 14⟩ = 0 := by decide
  rw [h0] at h
  norm_num at h

/-- C7 amended: for valid dates the computed age is the year difference,
decremented by one when the (month, day) of the study date precedes that of
the birth date, CLAMPED BELOW AT ZERO; the two boundary examples hold;
unknown-marked dates yield the unknown age string (and a stored date that
fails to re-parse as valid is re-marked unknown), valid known dates yield a
number string. -/
theorem calculate_age_amended :
    (∀ b s : QDate, b.isValid = true → s.isValid = true →
      calculate_age b s =
        max 0 (s.year - b.year -
          (if s.month < b.month ∨ (s.month = b.month ∧ s.day < b.day)
           then 1 else 0))) ∧
    calculate_age ⟨1990, 6, 15⟩ ⟨2024, 6, 14⟩ = 33 ∧
    calculate_age ⟨1990, 6, 15⟩ ⟨2024, 6, 15⟩ = 34 ∧
    (∀ (du su : Bool) (b s : QDate), (du || su) = true →
      age_str du su b s = UNKNOWN_STATUS) ∧
    (∀ b s : QDate, age_str false false b s =
      toString (calculate_age b s) ++ " лет") ∧
    (∀ d : QDate, d.isValid = false → restored_date_unknown false d = true) := by
  refine ⟨?_, by decide, by decide, ?_, ?_, ?_⟩
  · intro b s hb hs
    by_cases hc : s.month < b.month ∨ (s.month = b.month ∧ s.day < b.day)
    · simp [calculate_age, hb, hs, hc]
    · simp [calculate_age, hb, hs, hc]
  · intro du su b s h
    simp [age_str, h]
  · intro b s
    rfl
  · intro d hd
    simp [restored_date_unknown, hd]

/-- Witness for the amended C7 at concrete valid dates. -/
theorem calculate_age_amended_witness :
    QDate.isValid ⟨1990, 6, 15⟩ = true ∧
    QDate.isValid ⟨2024, 3, 1⟩ = true ∧
    calculate_age ⟨1990, 6, 15⟩ ⟨2024, 3, 1⟩ =
      max 0 ((2024 : Int) - 1990 -
        (if (3 : Int) < 6 ∨ ((3 : Int) = 6 ∧ (1 : Int) < 15)
         then 1 else 0)) :=
  ⟨by decide, by decide,
    calculate_age_amended.1 ⟨1990, 6, 15⟩ ⟨2024, 3, 1⟩ (by decide)
      (by decide)⟩

/-! ## ReportFormatter (src/core/history.py, build_full_report)

Python's `str.title()` and `float()` are modelled for the character ranges
the application accepts (ASCII letters and the Cyrillic block А–я with Ё/ё,
matching the name validator's pattern) and for decimal/scientific numeric
notation respectively. -/

/-- Whether a character is cased, for the title-casing word boundaries. -/
def pyIsCased (c : Char) : Bool :=
  let n := c.toNat
  (decide (65 ≤ n) && decide (n ≤ 90)) ||
    (decide (97 ≤ n) && decide (n ≤ 122)) ||
    (decide (1040 ≤ n) && decide (n ≤ 1103)) || n == 1025 || n == 1105

/-- Uppercase mapping for ASCII and the Cyrillic block. -/
def pyToUpper (c : Char) : Char :=
  let n := c.toNat
  if 97 ≤ n ∧ n ≤ 122 then Char.ofNat (n - 32)
  else if 1072 ≤ n ∧ n ≤ 1103 then Char.ofNat (n - 32)
  else if n = 1105 then Char.ofNat 1025
  else c

/-- Lowercase mapping for ASCII and the Cyrillic block. -/
def pyToLower (c : Char) : Char :=
  let n := c.toNat
  if 65 ≤ n ∧ n ≤ 90 then Char.ofNat (n + 32)
  else if 1040 ≤ n ∧ n ≤ 1071 then Char.ofNat (n + 32)
  else if n = 1025 then Char.ofNat 1105
  else c

/-- Python `str.title()`: the first cased character of each run is
uppercased, subsequent cased characters are lowercased; a character is a
word start iff the previous character is not cased. -/
def pyTitle (s : String) : String :=
  String.mk
    ((s.toList.foldl
      (fun (acc : List Char × Bool) c =>
        (acc.1 ++ [if acc.2 then pyToLower c else pyToUpper c],
          pyIsCased c))
      ([], false)).1)

/-- The full-name composition in `build_full_report`
(src/core/history.py): the unknown placeholder when all three parts are
empty (Python falsiness of the empty string), otherwise the non-empty parts
joined by single spaces (`" ".join(filter(None, ...))`) and title-cased. -/
def build_full_name (surname name patronymic : String) : String :=
  if surname = "" ∧ name = "" ∧ patronymic = "" then UNKNOWN_STATUS
  else
    pyTitle (String.intercalate " "
      (([surname, name, patronymic]).filter (fun q => q != "")))

/-- C8: all three name parts empty gives the fixed unknown placeholder;
otherwise the non-empty parts are joined with single spaces and
title-cased; surname "Иванов" alone gives "Иванов", not the placeholder. -/
theorem build_full_name_spec :
    (∀ s n p : String, s = "" → n = "" → p = "" →
      build_full_name s n p = UNKNOWN_STATUS) ∧
    (∀ s n p : String, ¬ (s = "" ∧ n = "" ∧ p = "") →
      build_full_name s n p =
        pyTitle (String.intercalate " "
          (([s, n, p]).filter (fun q => q != "")))) ∧
    build_full_name "Иванов" "" "" = "Иванов" ∧
    build_full_name "Иванов" "" "" ≠ UNKNOWN_STATUS := by
  refine ⟨?_, ?_, by decide, by decide⟩
  · intro s n p hs hn hp
    simp [build_full_name, hs, hn, hp]
  · intro s n p h
    simp only [build_full_name, if_neg h]

/-- Witness for C8 at concrete (all-empty) inputs. -/
theorem build_full_name_spec_witness :
    build_full_name "" "" "" = UNKNOWN_STATUS :=
  build_full_name_spec.1 "" "" "" rfl rfl rfl

/-- Digits-only parse of a nonempty character list to its value. -/
def parseDigitsVal (cs : List Char) : Option ℕ :=
  if cs ≠ [] ∧ cs.all (fun c => c.isDigit) then
    some (cs.foldl (fun a c => a * 10 + (c.toNat - 48)) 0)
  else none

/-- Mantissa of a Python float literal: `digits`, `digits.`, `.digits` or
`digits.digits`. -/
def parseMantissa (cs : List Char) : Option ℚ :=
  match cs.splitOn '.' with
  | [ip] => (parseDigitsVal ip).map (fun v => (v : ℚ))
  | [ip, fp] =>
    if ip = [] ∧ fp = [] then none
    else
      match (if ip = [] then some 0 else parseDigitsVal ip),
          (if fp = [] then some 0 else parseDigitsVal fp) with
      | some iv, some fv =>
        some ((iv : ℚ) + (fv : ℚ) / (10 : ℚ) ^ fp.length)
      | _, _ => none
  | _ => none

/-- Signed exponent of a Python float literal. -/
def parseExpVal (cs : List Char) : Option Int :=
  match cs with
  | '+' :: r => (parseDigitsVal r).map (fun v => (v : Int))
  | '-' :: r => (parseDigitsVal r).map (fun v => -(v : Int))
  | r => (parseDigitsVal r).map (fun v => (v : Int))

/-- One pass of Python `str.replace` over a character list: each
(non-overlapping, leftmost-first) occurrence of the pattern is replaced.
The fuel argument (instantiated with the list length) only makes the
recursion structural; at least one character is consumed per step. -/
def pyReplaceFuel (pat rep : List Char) : ℕ → List Char → List Char
  | _, [] => []
  | 0, cs => cs
  | fuel + 1, c :: cs =>
    if pat.isPrefixOf (c :: cs) ∧ pat ≠ [] then
      rep ++ pyReplaceFuel pat rep fuel ((c :: cs).drop pat.length)
    else c :: pyReplaceFuel pat rep fuel cs

/-- Python `str.replace(pat, rep)` (for a non-empty pattern). -/
def pyReplace (s pat rep : String) : String :=
  String.mk (pyReplaceFuel pat.toList rep.toList s.toList.length s.toList)

/-- Strip leading and trailing whitespace, as Python `float` does. -/
def stripWs (cs : List Char) : List Char :=
  ((cs.dropWhile (fun c => c.isWhitespace)).reverse.dropWhile
    (fun c => c.isWhitespace)).reverse

/-- Python's `float(str)` builtin, modelled for decimal and scientific
notation (leading/trailing whitespace stripped, optional sign); the
`inf`/`nan` spellings and digit-group underscores are out of scope — every
string the application itself produces for the ct field is plain digits. -/
def pyFloat (s : String) : Option ℚ :=
  let cs := (stripWs s.toList).map (fun c => if c = 'E' then 'e' else c)
  let sb : ℚ × List Char :=
    match cs with
    | '+' :: r => (1, r)
    | '-' :: r => (-1, r)
    | r => (1, r)
  match sb.2.splitOn 'e' with
  | [m] => (parseMantissa m).map (fun v => sb.1 * v)
  | [m, e] =>
    match parseMantissa m, parseExpVal e with
    | some mv, some ev => some (sb.1 * mv * (10 : ℚ) ^ ev)
    | _, _ => none
  | _ => none

/-- The ct-recovery block of `build_full_report` (src/core/history.py):
`ct_value = 0.0`; when the ct string is not the unknown placeholder, strip
the `" %"` suffix and parse with `float(...)`, falling back to `0.0` on
ValueError. -/
def ct_value (ct_str : String) : ℚ :=
  if ct_str = UNKNOWN_STATUS then 0
  else
    match pyFloat (pyReplace ct_str " %" "") with
    | some v => v
    | none => 0

/-- The interpretation line of `build_full_report`:
`get_interpretation_text(citi, ct_value)`. -/
def report_interpretation (citi : ℚ) (ct_str : String) : String :=
  get_interpretation_text citi (ct_value ct_str)

/-- C10: a present ct string that does not parse as a number after
stripping " %" (via pyReplace) is silently treated as ct = 0, so the extra warning is
suppressed for every index value (including index > 500000); no exception
escapes (`ct_value` and `report_interpretation` are total). -/
theorem malformed_ct_suppresses_warning (citi : ℚ) (s : String)
    (h1 : s ≠ UNKNOWN_STATUS)
    (h2 : pyFloat (pyReplace s " %" "") = none) :
    ct_value s = 0 ∧
    report_interpretation citi s = (interpret_citi citi).1 := by
  have hv : ct_value s = 0 := by
    simp [ct_value, h1, h2]
  refine ⟨hv, ?_⟩
  unfold report_interpretation
  rw [hv]
  have hno : ¬ (citi > CITI_HIGH_THRESHOLD ∧ (0 : ℚ) > 70) := by
    rintro ⟨-, h⟩
    norm_num at h
  simp [get_interpretation_text, hno]

/-- Witness for C10 with the malformed ct string "abc" and index 600000. -/
theorem malformed_ct_suppresses_warning_witness :
    "abc" ≠ UNKNOWN_STATUS ∧
    pyFloat (pyReplace "abc" " %" "") = none ∧
    ct_value "abc" = 0 ∧
    report_interpretation 600000 "abc" = (interpret_citi 600000).1 := by
  have h1 : "abc" ≠ UNKNOWN_STATUS := by decide
  have h2 : pyFloat (pyReplace "abc" " %" "") = none := by rfl
  exact ⟨h1, h2,
    (malformed_ct_suppresses_warning 600000 "abc" h1 h2).1,
    (malformed_ct_suppresses_warning 600000 "abc" h1 h2).2⟩

end Citi
